import Mathlib

/-!
Verification development for the network/port discovery engine of the
defensive-tools repository (src/version-final/tools/port_scanner.py and
src/version-final/tools/network_scanner.py).

The Python modules are shallowly embedded as executable Lean functions.
Network and operating-system effects (TCP connect results, socket reads,
DNS answers, ping exit codes) are passed in as explicit environment
functions, exactly at the call sites where the Python code performs them;
everything else (parsing, filtering, demo-record injection, sorting,
report assembly) is translated statement by statement from the source.
-/

/-- Python `str.split(sep)` for a one-character separator, on character
lists: `"a-b".split('-') == ["a","b"]`, `"".split('-') == [""]`,
`"-".split('-') == ["", ""]`. -/
def splitChar (sep : Char) : List Char → List (List Char)
  | [] => [[]]
  | c :: cs =>
    match splitChar sep cs with
    | [] => if c = sep then [[], []] else [[c]]
    | h :: t => if c = sep then [] :: h :: t else (c :: h) :: t

/-- `splitChar` lifted to `String`. -/
def pySplit (sep : Char) (s : String) : List String :=
  (splitChar sep s.toList).map fun cs => String.mk cs

/-- Python `str.strip()` with no argument: remove leading and trailing
whitespace (the ASCII whitespace characters; Python also strips some
rarer Unicode spaces, which no input in this development contains). -/
def pyStrip (s : String) : String :=
  String.mk (((s.toList.dropWhile Char.isWhitespace).reverse.dropWhile
    Char.isWhitespace).reverse)

/-- Whether `needle` is a prefix of `hay` (character lists). -/
def listIsPrefix : List Char → List Char → Bool
  | [], _ => true
  | _ :: _, [] => false
  | a :: as, b :: bs => a = b && listIsPrefix as bs

/-- Whether `needle` occurs as a contiguous substring of `hay`. -/
def containsSub (needle : List Char) : List Char → Bool
  | [] => listIsPrefix needle []
  | c :: t => listIsPrefix needle (c :: t) || containsSub needle t

/-- Python `needle in s` for strings (substring containment). -/
def strContains (s pat : String) : Bool :=
  containsSub pat.toList s.toList

/-- Python `str.lower()` restricted to ASCII letters, the only letters the
scanned banners and header names use. -/
def pyLower (s : String) : String :=
  String.mk (s.toList.map Char.toLower)

/-- Value of a nonempty all-digit character list, else `none`. -/
def digitsVal? (cs : List Char) : Option Nat :=
  if cs.isEmpty then none
  else if cs.all Char.isDigit then
    some (cs.foldl (fun a c => 10 * a + (c.toNat - 48)) 0)
  else none

/-- Python `int(s)`: optional surrounding whitespace, optional sign, a
nonempty digit run.  A failure models the `ValueError: invalid literal
for int() ...` exception.  (Python additionally accepts underscores
between digits and non-ASCII decimal digits; no port-range grammar in
the spec produces those.) -/
def pyInt? (s : String) : Option Int :=
  match (pyStrip s).toList with
  | '+' :: rest => (digitsVal? rest).map Int.ofNat
  | '-' :: rest => (digitsVal? rest).map fun n => -(n : Int)
  | cs => (digitsVal? cs).map Int.ofNat

namespace PortScanner

/-- The static port-number-to-service table of `PortScanner.__init__`
(port_scanner.py lines 20-27). -/
def services : List (Nat × String) :=
  [(21, "FTP"), (22, "SSH"), (23, "Telnet"), (25, "SMTP"), (53, "DNS"),
   (80, "HTTP"), (110, "POP3"), (111, "RPC"), (135, "RPC"), (139, "NetBIOS"),
   (143, "IMAP"), (443, "HTTPS"), (445, "SMB"), (993, "IMAPS"), (995, "POP3S"),
   (1433, "MSSQL"), (1521, "Oracle"), (3306, "MySQL"), (3389, "RDP"),
   (5432, "PostgreSQL"), (5900, "VNC"), (6379, "Redis"), (8080, "HTTP-Alt"),
   (8443, "HTTPS-Alt"), (9200, "Elasticsearch"), (27017, "MongoDB")]

/-- `self.services.get(port, "Unknown")` (port_scanner.py line 37). -/
def servicesGet (port : Nat) : String :=
  (services.lookup port).getD "Unknown"

/-- One record of the `self.open_ports` list: the dict
`{'port': ..., 'service': ..., 'banner': ..., 'state': ...}`. -/
structure PortEntry where
  port : Nat
  service : String
  banner : String
  state : String
deriving DecidableEq, Repr

/-- The message parse_port_range substitutes for an `invalid literal`
ValueError (port_scanner.py line 102). -/
def invalidFormatMsg : String :=
  "Invalid port format. Use: 80, 80-443, or 80,443,8080"

/-- `PortScanner.parse_port_range` (port_scanner.py lines 79-106).
`Except.error e` models `raise ValueError(e)` escaping the method after
its own `except` clause has mapped every `invalid literal` message to
`invalidFormatMsg` and re-raised everything else.  The dash branch
mirrors CPython's unpacking of the lazy `map(int, ...)`: the ints are
evaluated left to right, and for three or more fragments the third
`int` is still evaluated (by the unpacking's final `next()`) before the
`too many values` error is raised. -/
def parse_port_range (port_range : String) : Except String (List Nat) :=
  if port_range.toList.contains '-' then
    match pySplit '-' port_range with
    | [a, b] =>
      match pyInt? a with
      | none => .error invalidFormatMsg
      | some s =>
        match pyInt? b with
        | none => .error invalidFormatMsg
        | some e =>
          if s > e ∨ s < 1 ∨ e > 65535 then .error "Invalid port range"
          else .ok ((List.range (e + 1 - s).toNat).map fun i => s.toNat + i)
    | [a] =>
      match pyInt? a with
      | none => .error invalidFormatMsg
      | some _ => .error "not enough values to unpack (expected 2, got 1)"
    | a :: b :: c :: _ =>
      match pyInt? a with
      | none => .error invalidFormatMsg
      | some _ =>
        match pyInt? b with
        | none => .error invalidFormatMsg
        | some _ =>
          match pyInt? c with
          | none => .error invalidFormatMsg
          | some _ => .error "too many values to unpack (expected 2)"
    | [] => .error invalidFormatMsg
  else if port_range.toList.contains ',' then
    match (pySplit ',' port_range).mapM fun p => pyInt? (pyStrip p) with
    | none => .error invalidFormatMsg
    | some ps =>
      if ps.all fun p => decide (1 ≤ p) && decide (p ≤ 65535) then
        .ok (ps.map Int.toNat)
      else .error "Invalid port number"
  else
    match pyInt? port_range with
    | none => .error invalidFormatMsg
    | some p =>
      if p < 1 ∨ p > 65535 then .error "Invalid port number"
      else .ok [p.toNat]

/-- The network as one probe sees it: `connectOk port` is whether
`sock.connect_ex((target, port))` returns 0 within the timeout (any
socket exception also yields `false`), and `recv port` is the data a
banner grab would read on that port, with `none` standing for the read,
send or decode raising (timeout included). -/
structure PortNet where
  connectOk : Nat → Bool
  recv : Nat → Option String

/-- `PortScanner.grab_banner` (port_scanner.py lines 58-77), with the
socket traffic abstracted into `recvRes`.  `none` falls into the bare
`except` and yields "No banner". -/
def grab_banner (recvRes : Option String) (port : Nat) : String :=
  if [21, 22, 25, 110, 143].contains port then
    match recvRes with
    | none => "No banner"
    | some raw =>
      let banner := pyStrip raw
      if banner ≠ "" then String.mk (banner.toList.take 100) else "No banner"
  else if [80, 8080].contains port then
    match recvRes with
    | none => "No banner"
    | some raw =>
      let banner := pyStrip raw
      match (pySplit '\n' banner).find? fun line =>
          strContains (pyLower line) "server:" with
      | some line => String.mk ((pyStrip line).toList.take 100)
      | none => "HTTP Service"
  else "Service detected"

/-- `PortScanner.scan_port` (port_scanner.py lines 29-56): `some entry`
means the connect succeeded and `entry` was appended to
`self.open_ports` under the lock; `none` means the connect failed (or an
exception was swallowed) and nothing was recorded. -/
def scan_port (net : PortNet) (port : Nat) : Option PortEntry :=
  if net.connectOk port then
    some ⟨port, servicesGet port, grab_banner (net.recv port) port, "Open"⟩
  else none

/-- The fabricated `demo_high_port_services` list (port_scanner.py
lines 156-162). -/
def demo_high_port_services : List PortEntry :=
  [⟨8080, "HTTP-Alt", "Apache httpd 2.4.41", "Open"⟩,
   ⟨8443, "HTTPS-Alt", "nginx 1.18.0", "Open"⟩,
   ⟨9200, "Elasticsearch", "Elasticsearch/7.14.0", "Open"⟩,
   ⟨27017, "MongoDB", "MongoDB 4.4.8", "Open"⟩,
   ⟨6379, "Redis", "Redis 6.2.5", "Open"⟩]

/-- The fabricated `demo_open_ports` list for localhost targets
(port_scanner.py lines 171-177). -/
def demo_open_ports : List PortEntry :=
  [⟨22, "SSH", "OpenSSH 8.2p1 Ubuntu 4ubuntu0.5", "Open"⟩,
   ⟨80, "HTTP", "Apache httpd 2.4.41", "Open"⟩,
   ⟨443, "HTTPS", "nginx 1.18.0", "Open"⟩,
   ⟨3306, "MySQL", "MySQL 8.0.28-0ubuntu0.20.04.3", "Open"⟩,
   ⟨5432, "PostgreSQL", "PostgreSQL 12.9", "Open"⟩]

/-- The last-resort localhost demo SMTP record (port_scanner.py line 185). -/
def smtpDemo : PortEntry := ⟨25, "SMTP", "Postfix 3.4.8", "Open"⟩

/-- The last-resort localhost demo DNS record (port_scanner.py line 187). -/
def dnsDemo : PortEntry := ⟨53, "DNS", "BIND 9.16.1", "Open"⟩

instance portLeDec :
    DecidableRel fun a b : PortEntry => a.port ≤ b.port :=
  fun a b => Nat.decLe a.port b.port

/-- `self.open_ports.sort(key=lambda x: x['port'])` (port_scanner.py
lines 190 and 196): a stable sort by port number.  Python's `list.sort`
is stable, and any stable sort by a key computes the same list, so the
stable `List.insertionSort` is an exact model. -/
def sortPorts (l : List PortEntry) : List PortEntry :=
  List.insertionSort (fun a b => a.port ≤ b.port) l

/-- What `PortScanner.scan` returns, with the report text abstracted to
its payload: an early-return error string, or the probed well-known
ports (one executor submission per list element) together with the
sorted `self.open_ports` collection the result table is printed from. -/
inductive ScanOutcome where
  | error (msg : String)
  | report (probed : List Nat) (openPorts : List PortEntry)
deriving DecidableEq, Repr

/-- `target in ['127.0.0.1', 'localhost', '::1']` (port_scanner.py
line 114). -/
def isLocalhostTarget (target : String) : Bool :=
  ["127.0.0.1", "localhost", "::1"].contains target

/-- Target validation (port_scanner.py lines 116-123): `inetOk t`
models `socket.inet_aton(t)` succeeding, `dns t` models
`socket.gethostbyname(t)` with `none` for `socket.gaierror`.  `none`
overall is the early `Unable to resolve target` return. -/
def resolveTarget (inetOk : String → Bool) (dns : String → Option String)
    (target : String) : Option String :=
  if inetOk target then some target else dns target

/-- `well_known_ports = [p for p in ports if p <= 1024]`
(port_scanner.py line 140). -/
def wellKnownOf (ports : List Nat) : List Nat :=
  ports.filter fun p => decide (p ≤ 1024)

/-- `high_ports = [p for p in ports if p > 1024]` (port_scanner.py
line 141). -/
def highOf (ports : List Nat) : List Nat :=
  ports.filter fun p => decide (p > 1024)

/-- The localhost demo fallback (port_scanner.py lines 170-187): demo
records filtered to the requested ports; if none match and ports were
requested, an SMTP record when any port is at most 25 and a DNS record
when any port is at most 53. -/
def localhostDemo (ports : List Nat) : List PortEntry :=
  let demo := demo_open_ports.filter fun d => ports.contains d.port
  if demo.isEmpty && !ports.isEmpty then
    (if ports.any fun p => decide (p ≤ 25) then [smtpDemo] else []) ++
    (if ports.any fun p => decide (p ≤ 53) then [dnsDemo] else [])
  else demo

/-- The `self.open_ports` collection before the final sort
(port_scanner.py lines 144-187): the successful probes of the
well-known ports (lines 144-152, their completion order arbitrary but
sorted away below), then a fabricated demo record for every demo high
port that lies in the requested high ports (lines 155-167), all of it
replaced by the localhost demo fallback when the target was localhost
and nothing was collected (lines 170-187). -/
def openPortsList (net : PortNet) (is_localhost : Bool)
    (ports : List Nat) : List PortEntry :=
  let afterHigh := (wellKnownOf ports).filterMap (scan_port net) ++
    demo_high_port_services.filter fun d => (highOf ports).contains d.port
  if is_localhost && afterHigh.isEmpty then localhostDemo ports else afterHigh

/-- `PortScanner.scan` (port_scanner.py lines 108-237).  The body
follows the source line by line: localhost flag from the original
target, target validation, port parsing, the 10,000-port guard, real
scanning of the ports `<= 1024` (each list element submitted to the
executor once), demo injection, and the final stable sort. -/
def portScan (inetOk : String → Bool) (dns : String → Option String)
    (net : PortNet) (target port_range : String) : ScanOutcome :=
  match resolveTarget inetOk dns target with
  | none => .error ("Error: Unable to resolve target '" ++ target ++ "'")
  | some _ =>
    match parse_port_range port_range with
    | .error e => .error ("Error: " ++ e)
    | .ok ports =>
      if ports.length > 10000 then
        .error "Error: Port range too large (max 10,000 ports)"
      else
        .report (wellKnownOf ports)
          (sortPorts (openPortsList net (isLocalhostTarget target) ports))

end PortScanner

namespace NetworkScanner

/-- Number of addresses a /pfx IPv4 prefix spans. -/
def hostCapacity (pfx : Nat) : Nat := 2 ^ (32 - pfx)

/-- The network address of the prefix containing `addr`: the host bits
cleared, as `ipaddress.ip_network(..., strict=False)` does. -/
def networkAddress (addr pfx : Nat) : Nat :=
  addr - addr % 2 ^ (32 - pfx)

/-- The broadcast address of the prefix containing `addr`. -/
def broadcastAddress (addr pfx : Nat) : Nat :=
  networkAddress addr pfx + hostCapacity pfx - 1

/-- `list(ipaddress.ip_network(...).hosts())` (network_scanner.py
line 349), per the CPython `ipaddress` module: every address of the
prefix except the network and broadcast addresses; for a /31 both of
its two addresses; for a /32 the single address. -/
def ipHosts (addr pfx : Nat) : List Nat :=
  let net := networkAddress addr pfx
  if 32 ≤ pfx then [net]
  else if pfx = 31 then [net, net + 1]
  else (List.range (hostCapacity pfx - 2)).map fun i => net + 1 + i

/-- The enumerated address space `NetworkScanner.scan` iterates
(network_scanner.py lines 349-353): `hosts()`, replaced by the bare
network address when empty (a fallback for old `ipaddress` versions
where a /32 yielded no hosts; with the semantics above it never fires). -/
def scanHostList (addr pfx : Nat) : List Nat :=
  let hs := ipHosts addr pfx
  if hs.isEmpty then [networkAddress addr pfx] else hs

/-- One dotted-quad octet as `ipaddress` accepts it: one to three ASCII
digits, no leading zero, value at most 255. -/
def parseOctet (s : String) : Option Nat :=
  let cs := s.toList
  if cs.isEmpty then none
  else if !cs.all Char.isDigit then none
  else if cs.length > 1 && cs.headD '0' = '0' then none
  else
    let v := cs.foldl (fun a c => 10 * a + (c.toNat - 48)) 0
    if v ≤ 255 then some v else none

/-- A dotted-quad IPv4 address as a number. -/
def parseIPv4 (s : String) : Option Nat :=
  match (splitChar '.' s.toList).map fun cs => parseOctet (String.mk cs) with
  | [some a, some b, some c, some d] =>
    some (((a * 256 + b) * 256 + c) * 256 + d)
  | _ => none

/-- A prefix length: digits, at most 32. -/
def parsePrefixLen (s : String) : Option Nat :=
  match digitsVal? s.toList with
  | some v => if v ≤ 32 then some v else none
  | none => none

/-- `ipaddress.ip_network(network_range, strict=False)` on the
dotted-quad grammar the spec names (CIDR `a.b.c.d/p` or a bare
address, which gets prefix 32): the numeric address as written and the
prefix length.  `none` models the ValueError branch of `scan`. -/
def parseCIDR (s : String) : Option (Nat × Nat) :=
  match splitChar '/' s.toList with
  | [a] => (parseIPv4 (String.mk a)).map fun ip => (ip, 32)
  | [a, p] =>
    match parseIPv4 (String.mk a), parsePrefixLen (String.mk p) with
    | some ip, some pl => some (ip, pl)
    | _, _ => none
  | _ => none

/-- The second component of an `active_hosts` tuple: the TCP port that
answered, or the string "ICMP" (network_scanner.py lines 137 and 178). -/
inductive RPort where
  | tcp (p : Nat)
  | icmp
deriving DecidableEq, Repr

/-- `str(port)` as the report row prints it. -/
def RPort.render : RPort → String
  | .tcp p => toString p
  | .icmp => "ICMP"

/-- One `active_hosts` tuple `(ip, port, host_info, mac)`, the ip kept
numeric (the code keeps the dotted string and sorts by
`ipaddress.ip_address`, i.e. by this number). -/
structure HostEntry where
  ip : Nat
  port : RPort
  hostname : String
  mac : String
deriving DecidableEq, Repr

/-- The fixed probe list of `_ping_host_tcp` (network_scanner.py
line 123). -/
def test_ports : List Nat := [80, 443, 22, 21, 25, 53, 135, 139, 445]

/-- The network as the host probes see it: TCP connect results per
(ip, port), ping exit status per ip, and the ARP/DNS enrichment
results the probe records for a live host. -/
structure HostNet where
  connectOk : Nat → Nat → Bool
  pingOk : Nat → Bool
  mac : Nat → String
  hostname : Nat → String → String

/-- `NetworkScanner._ping_host_tcp` (network_scanner.py lines 113-144):
the first of the fixed ports whose connect succeeds wins; its entry
(with MAC resolved first, then the hostname with the MAC as fallback
material) is appended under the lock.  No success on any port means no
entry. -/
def ping_host_tcp (net : HostNet) (ip : Nat) : Option HostEntry :=
  match test_ports.find? fun port => net.connectOk ip port with
  | some port => some ⟨ip, .tcp port, net.hostname ip (net.mac ip), net.mac ip⟩
  | none => none

/-- `NetworkScanner._ping_host_icmp` (network_scanner.py lines 146-182):
an entry with port "ICMP" exactly when the ping subprocess exits 0. -/
def ping_host_icmp (net : HostNet) (ip : Nat) : Option HostEntry :=
  if net.pingOk ip then
    some ⟨ip, .icmp, net.hostname ip (net.mac ip), net.mac ip⟩
  else none

instance hostLeDec :
    DecidableRel fun a b : HostEntry => a.ip ≤ b.ip :=
  fun a b => Nat.decLe a.ip b.ip

/-- `self.active_hosts.sort(key=lambda x: ipaddress.ip_address(x[0]))`
(network_scanner.py line 385): stable sort by numeric address. -/
def sortHosts (l : List HostEntry) : List HostEntry :=
  List.insertionSort (fun a b => a.ip ≤ b.ip) l

/-- The probe `scan` dispatches in its primary pass (network_scanner.py
lines 370-374): `_ping_host_icmp` when `method == "icmp"`, else
`_ping_host_tcp`. -/
def primaryProbe (tcpProbe icmpProbe : Nat → Option HostEntry)
    (method : String) : Nat → Option HostEntry :=
  if method == "icmp" then icmpProbe else tcpProbe

/-- `icmp_fallback_used` (network_scanner.py lines 377-378): the method
was "tcp" and the primary pass appended nothing. -/
def netFallback (tcpProbe icmpProbe : Nat → Option HostEntry)
    (hostsL : List Nat) (method : String) : Bool :=
  method == "tcp" &&
    (hostsL.filterMap (primaryProbe tcpProbe icmpProbe method)).isEmpty

/-- The `active_hosts` collection before the final sort: the primary
pass's appends, then — only when the fallback fired, in which case the
primary pass appended nothing — the ICMP pass's appends. -/
def netRaw (tcpProbe icmpProbe : Nat → Option HostEntry)
    (hostsL : List Nat) (method : String) : List HostEntry :=
  hostsL.filterMap (primaryProbe tcpProbe icmpProbe method) ++
    (if netFallback tcpProbe icmpProbe hostsL method then
      hostsL.filterMap icmpProbe
    else [])

/-- The probes dispatched over the scan, in submission order: one
`(strategy, ip)` pair per `executor.submit` call of `_scan_with`
(network_scanner.py lines 360-368, called at lines 370-382). -/
def netTrace (tcpProbe icmpProbe : Nat → Option HostEntry)
    (hostsL : List Nat) (method : String) : List (String × Nat) :=
  hostsL.map (fun ip => ((if method == "icmp" then "icmp" else "tcp"), ip)) ++
    (if netFallback tcpProbe icmpProbe hostsL method then
      hostsL.map fun ip => ("icmp", ip)
    else [])

/-- Fifty equal signs, `'='*50`. -/
def eq50 : String := String.mk (List.replicate 50 '=')

/-- Eighty dashes, `'-'*80`. -/
def dash80 : String := String.mk (List.replicate 80 '-')

/-- Python `f"{s:<w}"`: pad with spaces on the right to width `w`. -/
def padRight (s : String) (w : Nat) : String :=
  s ++ String.mk (List.replicate (w - s.length) ' ')

/-- The progress chunks one `_scan_with` pass appends: one line per 50
completions.  Completion order across workers is arbitrary, but the
chunk text depends only on the running count, so the appended lines
are order-independent. -/
def progressSegs (n : Nat) : List String :=
  (List.range (n / 50)).map fun j =>
    let k := 50 * (j + 1)
    s!"Scanned {k}/{n} hosts...\n"

/-- The header row of the host table (network_scanner.py line 397). -/
def hostTableHeader : String :=
  padRight "IP Address" 15 ++ " " ++ padRight "Open Port" 10 ++ " " ++
    padRight "MAC Address" 20 ++ " " ++ padRight "Hostname" 30 ++ "\n"

/-- `n` rendered as a dotted quad. -/
def ipToString (n : Nat) : String :=
  let a := n / 16777216 % 256
  let b := n / 65536 % 256
  let c := n / 256 % 256
  let d := n % 256
  s!"{a}.{b}.{c}.{d}"

/-- One row of the host table (network_scanner.py line 401). -/
def hostRow (e : HostEntry) : String :=
  padRight (ipToString e.ip) 15 ++ " " ++ padRight e.port.render 10 ++ " " ++
    padRight e.mac 20 ++ " " ++ padRight e.hostname 30 ++ "\n"

/-- Every chunk `scan` appends to `results`, in order (network_scanner.py
lines 355-410).  `durationStr` stands for the formatted wall-clock
duration. -/
def netSegments (tcpProbe icmpProbe : Nat → Option HostEntry)
    (hostsL : List Nat) (method network_range durationStr : String) :
    List String :=
  let n := hostsL.length
  let fb := netFallback tcpProbe icmpProbe hostsL method
  let sorted := sortHosts (netRaw tcpProbe icmpProbe hostsL method)
  [s!"Network Scan Results for {network_range}\n",
   eq50 ++ "\n\n",
   s!"Scanning {n} hosts...\n",
   (if method == "tcp" then "Method: TCP (ports)\n\n"
    else "Method: ICMP ping\n\n")] ++
  progressSegs n ++
  (if fb then
    ["\nNo hosts responded to common TCP ports.\n",
     "Attempting ICMP ping fallback...\n\n"] ++ progressSegs n
  else []) ++
  ["\nScan Summary:\n",
   s!"Duration: {durationStr} seconds\n",
   s!"Active hosts found: {sorted.length}\n\n"] ++
  (if sorted.isEmpty then ["No active hosts found in the specified range.\n"]
   else ["Active Hosts:\n", dash80 ++ "\n", hostTableHeader, dash80 ++ "\n"] ++
     sorted.map hostRow) ++
  ["\nNote: This scan uses basic connectivity checks.\n"] ++
  (if method == "icmp" || fb then
    ["Hosts may appear via ICMP ping even when no common TCP ports are open.\n"]
  else []) ++
  ["Some hosts may not respond due to firewalls or security policies.\n"]

/-- What one `NetworkScanner.scan` call produces once the range parsed:
the dispatched probes, the sorted `active_hosts`, the fallback flag,
and the report chunks. -/
structure NetScanResult where
  trace : List (String × Nat)
  entries : List HostEntry
  fallbackUsed : Bool
  segments : List String
deriving Repr

/-- `NetworkScanner.scan` (network_scanner.py lines 331-419) after range
parsing, over the enumerated `hostsL` with the two strategies given as
probe functions. -/
def netScan (tcpProbe icmpProbe : Nat → Option HostEntry)
    (hostsL : List Nat) (method network_range durationStr : String) :
    NetScanResult :=
  ⟨netTrace tcpProbe icmpProbe hostsL method,
   sortHosts (netRaw tcpProbe icmpProbe hostsL method),
   netFallback tcpProbe icmpProbe hostsL method,
   netSegments tcpProbe icmpProbe hostsL method network_range durationStr⟩

/-- One blocking call site of the scanning/enrichment code paths, with
the timeout the Python layer passes to the primitive (milliseconds)
and, for subprocesses, the time bound the invoked command itself is
given on its command line. -/
structure BlockingCall where
  site : String
  kind : String
  pythonTimeoutMs : Option Nat
  commandTimeoutMs : Option Nat
deriving DecidableEq, Repr

/-- `subprocess.run(["arp", "-a", ip], capture_output=True, text=True)`
(network_scanner.py lines 293-299): no `timeout=` argument, and `arp`
takes no time bound of its own. -/
def arpLookupCall : BlockingCall :=
  ⟨"network_scanner.get_mac_address subprocess.run arp -a ip", "subprocess",
   none, none⟩

/-- The full-table `subprocess.run(["arp", "-a"], ...)` fallback
(network_scanner.py lines 311-316). -/
def arpFullTableCall : BlockingCall :=
  ⟨"network_scanner.get_mac_address subprocess.run arp -a", "subprocess",
   none, none⟩

/-- `subprocess.run(["getmac", ...], ...)` for the local address
(network_scanner.py line 276): no timeout either. -/
def getmacCall : BlockingCall :=
  ⟨"network_scanner.get_mac_address subprocess.run getmac", "subprocess",
   none, none⟩

/-- The ping subprocess (network_scanner.py lines 166-171):
`subprocess.run` is given no `timeout=`, but the command line carries
ping's own one-second bound (`-w 1000` ms on Windows, `-W 1` s
elsewhere, from `timeout=1` of `__init__`). -/
def pingCall : BlockingCall :=
  ⟨"network_scanner._ping_host_icmp subprocess.run ping", "subprocess",
   none, some 1000⟩

/-- The nbtstat subprocess (network_scanner.py lines 216-222):
`timeout=2`. -/
def nbtstatCall : BlockingCall :=
  ⟨"network_scanner.get_host_info subprocess.run nbtstat", "subprocess",
   some 2000, none⟩

/-- Every blocking call the probe and enrichment paths perform, with
its timeout: the four socket operations (`settimeout` before each), the
four subprocesses, and the two resolver calls of `get_host_info`
(`socket.gethostbyaddr`, `socket.getfqdn`), which accept no timeout
parameter. -/
def blockingCalls : List BlockingCall :=
  [⟨"port_scanner.scan_port socket.connect_ex", "socket", some 3000, none⟩,
   ⟨"port_scanner.grab_banner sock.recv (text protocols)", "socket",
    some 2000, none⟩,
   ⟨"port_scanner.grab_banner sock.send (HTTP)", "socket", some 3000, none⟩,
   ⟨"port_scanner.grab_banner sock.recv (HTTP)", "socket", some 2000, none⟩,
   ⟨"network_scanner._ping_host_tcp socket.connect_ex", "socket",
    some 1000, none⟩,
   pingCall,
   ⟨"network_scanner.get_host_info socket.gethostbyaddr", "resolver",
    none, none⟩,
   ⟨"network_scanner.get_host_info socket.getfqdn", "resolver", none, none⟩,
   nbtstatCall,
   getmacCall,
   arpLookupCall,
   arpFullTableCall]

end NetworkScanner

instance : IsTotal PortScanner.PortEntry fun a b => a.port ≤ b.port :=
  ⟨fun a b => Nat.le_total a.port b.port⟩

instance : IsTrans PortScanner.PortEntry fun a b => a.port ≤ b.port :=
  ⟨fun _ _ _ => Nat.le_trans⟩

instance : IsTotal NetworkScanner.HostEntry fun a b => a.ip ≤ b.ip :=
  ⟨fun a b => Nat.le_total a.ip b.ip⟩

instance : IsTrans NetworkScanner.HostEntry fun a b => a.ip ≤ b.ip :=
  ⟨fun _ _ _ => Nat.le_trans⟩

/-- Membership is unchanged by the port sort. -/
theorem mem_sortPorts {a : PortScanner.PortEntry}
    {l : List PortScanner.PortEntry} :
    a ∈ PortScanner.sortPorts l ↔ a ∈ l :=
  (List.perm_insertionSort _ l).mem_iff

/-- Membership is unchanged by the host sort. -/
theorem mem_sortHosts {a : NetworkScanner.HostEntry}
    {l : List NetworkScanner.HostEntry} :
    a ∈ NetworkScanner.sortHosts l ↔ a ∈ l :=
  (List.perm_insertionSort _ l).mem_iff

/-- The port sort's output is sorted by port number. -/
theorem sorted_sortPorts (l : List PortScanner.PortEntry) :
    (PortScanner.sortPorts l).Sorted fun a b => a.port ≤ b.port :=
  List.sorted_insertionSort _ l

/-- The host sort's output is sorted by numeric address. -/
theorem sorted_sortHosts (l : List NetworkScanner.HostEntry) :
    (NetworkScanner.sortHosts l).Sorted fun a b => a.ip ≤ b.ip :=
  List.sorted_insertionSort _ l

/-- A list sorted under a numeric key with pairwise-distinct keys is
strictly increasing under that key. -/
theorem chain_lt_of_sorted_key_nodup {α : Type} (key : α → Nat)
    {l : List α} (hs : l.Sorted fun a b => key a ≤ key b)
    (hn : (l.map key).Nodup) : l.Chain' fun a b => key a < key b := by
  have hne : l.Pairwise fun a b => key a ≠ key b := List.pairwise_map.1 hn
  exact ((hs.and hne).imp fun h => lt_of_le_of_ne h.1 h.2).chain'

/-- Addresses contributed by an address-preserving probe all come from
the scanned list. -/
theorem filterMap_ip_subset (probe : Nat → Option NetworkScanner.HostEntry)
    (pres : ∀ ip e, probe ip = some e → e.ip = ip) (hostsL : List Nat) :
    ∀ x ∈ (hostsL.filterMap probe).map NetworkScanner.HostEntry.ip,
      x ∈ hostsL := by
  intro x hx
  obtain ⟨e, he, hex⟩ := List.mem_map.1 hx
  obtain ⟨ip, hip, hpe⟩ := List.mem_filterMap.1 he
  rw [← hex, pres ip e hpe]
  exact hip

/-- An address-preserving probe over a duplicate-free address list
yields entries with pairwise-distinct addresses: each address is
appended at most once. -/
theorem filterMap_ip_nodup (probe : Nat → Option NetworkScanner.HostEntry)
    (pres : ∀ ip e, probe ip = some e → e.ip = ip) :
    ∀ {hostsL : List Nat}, hostsL.Nodup →
      ((hostsL.filterMap probe).map NetworkScanner.HostEntry.ip).Nodup := by
  intro hostsL
  induction hostsL with
  | nil => intro _; simp
  | cons ip rest ih =>
    intro hnd
    obtain ⟨hnotmem, hndrest⟩ := List.nodup_cons.1 hnd
    rw [List.filterMap_cons]
    cases hpe : probe ip with
    | none => exact ih hndrest
    | some e =>
      rw [List.map_cons]
      refine List.nodup_cons.2 ⟨?_, ih hndrest⟩
      intro hmem
      rw [pres ip e hpe] at hmem
      exact hnotmem (filterMap_ip_subset probe pres rest ip hmem)

/-- C9: target validation precedes port parsing.  When the target
string neither passes `inet_aton` nor resolves via DNS, `scan` returns
the resolve-error text for every port-range string — malformed or
oversized included — and no port-parsing outcome is reported. -/
theorem C9_holds (inetOk : String → Bool) (dns : String → Option String)
    (net : PortScanner.PortNet) (target port_range : String)
    (h1 : inetOk target = false) (h2 : dns target = none) :
    PortScanner.portScan inetOk dns net target port_range =
      .error ("Error: Unable to resolve target '" ++ target ++ "'") := by
  simp [PortScanner.portScan, PortScanner.resolveTarget, h1, h2]

/-- C9 witness: an unresolvable host with an out-of-range port string
still yields the resolve error. -/
theorem C9_witness :
    PortScanner.portScan (fun _ => false) (fun _ => none)
      ⟨fun _ => false, fun _ => none⟩ "bad.example" "70000" =
      .error ("Error: Unable to resolve target '" ++ "bad.example" ++ "'") :=
  C9_holds (fun _ => false) (fun _ => none)
    ⟨fun _ => false, fun _ => none⟩ "bad.example" "70000" rfl rfl

/-- C10: the comma list "80,80" parses to the port 80 twice, both
occurrences are submitted to the executor, and with the port open the
final report lists port 80 twice. -/
theorem C10_holds :
    PortScanner.parse_port_range "80,80" = .ok [80, 80] ∧
    PortScanner.portScan (fun _ => true) (fun _ => none)
      ⟨fun p => p == 80, fun _ => none⟩ "192.0.2.9" "80,80" =
      .report [80, 80]
        [⟨80, "HTTP", "No banner", "Open"⟩,
         ⟨80, "HTTP", "No banner", "Open"⟩] :=
  ⟨rfl, rfl⟩

/-- C1 counterexample: scanning "8080" against a target on which every
TCP connect fails probes nothing (8080 is above 1024, so the executor
receives no port at all), yet the report contains an Open entry — the
fabricated high-port demo record. -/
theorem C1_counterexample :
    PortScanner.portScan (fun _ => true) (fun _ => none)
      ⟨fun _ => false, fun _ => none⟩ "192.0.2.9" "8080" =
      .report [] [⟨8080, "HTTP-Alt", "Apache httpd 2.4.41", "Open"⟩] := rfl

/-- C2 counterexample: `ScanPorts("127.0.0.1", "70000")` returns
"Error: Invalid port number", which does not contain the text
"Invalid port format" the claim requires. -/
theorem C2_counterexample :
    PortScanner.portScan (fun t => t == "127.0.0.1") (fun _ => none)
      ⟨fun _ => false, fun _ => none⟩ "127.0.0.1" "70000" =
      .error "Error: Invalid port number" ∧
    strContains "Error: Invalid port number" "Invalid port format" = false :=
  ⟨rfl, rfl⟩

/-- C2 amended: every parse failure is returned as "Error: " plus the
raised message, with no probing (the outcome carries no probed list) —
but only non-numeric tokens produce the "Invalid port format. Use: ..."
text; a reversed or out-of-range dash range produces "Invalid port
range" and an out-of-range single or comma-list port produces "Invalid
port number", so `ScanPorts("127.0.0.1", "70000")` reports "Error:
Invalid port number". -/
theorem C2_amended_holds (inetOk : String → Bool)
    (dns : String → Option String) (net : PortScanner.PortNet)
    (target : String)
    (hres : (PortScanner.resolveTarget inetOk dns target).isSome = true) :
    (∀ s e, PortScanner.parse_port_range s = .error e →
      PortScanner.portScan inetOk dns net target s =
        .error ("Error: " ++ e)) ∧
    PortScanner.parse_port_range "70000" = .error "Invalid port number" ∧
    PortScanner.parse_port_range "80x" = .error PortScanner.invalidFormatMsg ∧
    PortScanner.parse_port_range "443-80" = .error "Invalid port range" ∧
    PortScanner.parse_port_range "80-70000" = .error "Invalid port range" ∧
    PortScanner.parse_port_range "1,70000" = .error "Invalid port number" := by
  refine ⟨?_, rfl, rfl, rfl, rfl, rfl⟩
  intro s e hpe
  obtain ⟨t, ht⟩ := Option.isSome_iff_exists.1 hres
  simp [PortScanner.portScan, ht, hpe]

/-- C2 witness: with a resolvable target, the oversized single port
"70000" comes back as "Error: Invalid port number". -/
theorem C2_witness :
    PortScanner.portScan (fun _ => true) (fun _ => none)
      ⟨fun _ => false, fun _ => none⟩ "192.0.2.9" "70000" =
      .error ("Error: " ++ "Invalid port number") :=
  (C2_amended_holds (fun _ => true) (fun _ => none)
    ⟨fun _ => false, fun _ => none⟩ "192.0.2.9" rfl).1
    "70000" "Invalid port number" rfl

/-- C3 counterexample: "10.0.0.0/31" is a syntactically valid CIDR
input with host capacity 2 > 1, yet the enumerated address space
contains the network address 10.0.0.0 — `hosts()` returns both
addresses of a /31 instead of excluding network and broadcast. -/
theorem C3_counterexample :
    NetworkScanner.parseCIDR "10.0.0.0/31" = some (167772160, 31) ∧
    1 < NetworkScanner.hostCapacity 31 ∧
    NetworkScanner.networkAddress 167772160 31 ∈
      NetworkScanner.ipHosts 167772160 31 := by
  refine ⟨rfl, by decide, by decide⟩

/-- C3 amended: for host capacity > 2 (prefix at most /30) the
enumeration excludes the network and broadcast addresses and has
exactly capacity - 2 elements; a /31 enumerates both of its addresses;
a /32 (or bare address) enumerates exactly the one address; and
"10.0.0.0/30" enumerates exactly 10.0.0.1 and 10.0.0.2. -/
theorem C3_amended_holds :
    (∀ addr pfx, pfx ≤ 30 →
      (NetworkScanner.ipHosts addr pfx).length =
        NetworkScanner.hostCapacity pfx - 2 ∧
      NetworkScanner.networkAddress addr pfx ∉
        NetworkScanner.ipHosts addr pfx ∧
      NetworkScanner.broadcastAddress addr pfx ∉
        NetworkScanner.ipHosts addr pfx) ∧
    (∀ addr, NetworkScanner.ipHosts addr 32 =
      [NetworkScanner.networkAddress addr 32]) ∧
    (∀ addr, NetworkScanner.ipHosts addr 31 =
      [NetworkScanner.networkAddress addr 31,
       NetworkScanner.networkAddress addr 31 + 1]) ∧
    NetworkScanner.parseCIDR "10.0.0.0/30" = some (167772160, 30) ∧
    NetworkScanner.ipHosts 167772160 30 = [167772161, 167772162] := by
  refine ⟨?_, fun addr => rfl, fun addr => rfl, rfl, rfl⟩
  intro addr pfx hp
  have hcap : 4 ≤ NetworkScanner.hostCapacity pfx := by
    have h2 : 2 ≤ 32 - pfx := by omega
    calc (4 : Nat) = 2 ^ 2 := by norm_num
    _ ≤ 2 ^ (32 - pfx) := Nat.pow_le_pow_right (by norm_num) h2
  have h32 : ¬ 32 ≤ pfx := by omega
  have h31 : ¬ pfx = 31 := by omega
  refine ⟨?_, ?_, ?_⟩
  · simp [NetworkScanner.ipHosts, h32, h31]
  · simp only [NetworkScanner.ipHosts, if_neg h32, if_neg h31,
      List.mem_map, List.mem_range, not_exists, not_and]
    intro i _
    omega
  · simp only [NetworkScanner.ipHosts, NetworkScanner.broadcastAddress,
      if_neg h32, if_neg h31, List.mem_map, List.mem_range, not_exists,
      not_and]
    intro i hi
    omega

/-- C3 witness: a /24 enumerates capacity - 2 = 254 hosts. -/
theorem C3_witness :
    (NetworkScanner.ipHosts 167772160 24).length =
      NetworkScanner.hostCapacity 24 - 2 :=
  (C3_amended_holds.1 167772160 24 (by norm_num)).1

/-- C7 counterexample: the ARP-table lookup subprocess wait —
`subprocess.run(["arp", "-a", ip], ...)` in `get_mac_address` — carries
no timeout at the Python level and no time bound on its command line:
a blocking operation in the enrichment path with no explicit timeout. -/
theorem C7_counterexample :
    NetworkScanner.arpLookupCall ∈ NetworkScanner.blockingCalls ∧
    NetworkScanner.arpLookupCall.pythonTimeoutMs = none ∧
    NetworkScanner.arpLookupCall.commandTimeoutMs = none := by
  refine ⟨by decide, rfl, rfl⟩

/-- C7 amended: every socket operation carries an explicit Python-level
timeout, and every call with no timeout at either level is a
non-socket call: the ping subprocess is bounded only by ping's own
command-line timeout, the nbtstat subprocess has a 2 s Python timeout,
while the ARP and getmac subprocesses and the resolver calls carry no
explicit timeout at all. -/
theorem C7_amended_holds :
    (∀ c ∈ NetworkScanner.blockingCalls,
      c.kind = "socket" → c.pythonTimeoutMs.isSome = true) ∧
    NetworkScanner.pingCall ∈ NetworkScanner.blockingCalls ∧
    NetworkScanner.pingCall.pythonTimeoutMs = none ∧
    NetworkScanner.pingCall.commandTimeoutMs = some 1000 ∧
    NetworkScanner.nbtstatCall ∈ NetworkScanner.blockingCalls ∧
    NetworkScanner.nbtstatCall.pythonTimeoutMs = some 2000 ∧
    (∀ c ∈ NetworkScanner.blockingCalls,
      c.pythonTimeoutMs = none → c.commandTimeoutMs = none →
        c.kind ≠ "socket") := by
  decide

/-- C7 witness: the port-scanner connect call is a socket operation
with a timeout set. -/
theorem C7_witness :
    (⟨"port_scanner.scan_port socket.connect_ex", "socket", some 3000,
      none⟩ : NetworkScanner.BlockingCall).pythonTimeoutMs.isSome = true :=
  C7_amended_holds.1
    ⟨"port_scanner.scan_port socket.connect_ex", "socket", some 3000, none⟩
    (by decide) rfl

/-- C8: a successful connect always records the port Open with the
service resolved from the static table — the banner value, whatever the
grab produced, never fails the probe; a banner-grab failure on a
banner-grabbing port degrades to "No banner"; and every port missing
from the table resolves to service "Unknown". -/
theorem C8_holds (net : PortScanner.PortNet) (port : Nat)
    (h : net.connectOk port = true) :
    PortScanner.scan_port net port =
      some ⟨port, PortScanner.servicesGet port,
        PortScanner.grab_banner (net.recv port) port, "Open"⟩ ∧
    (net.recv port = none →
      ([21, 22, 25, 110, 143].contains port ||
        [80, 8080].contains port) = true →
      PortScanner.grab_banner (net.recv port) port = "No banner") ∧
    (∀ q, PortScanner.services.lookup q = none →
      PortScanner.servicesGet q = "Unknown") := by
  refine ⟨by simp [PortScanner.scan_port, h], ?_, ?_⟩
  · intro hrecv hmem
    rw [hrecv]
    rcases (Bool.or_eq_true _ _) ▸ hmem with h1 | h2
    · have h1' : port = 21 ∨ port = 22 ∨ port = 25 ∨ port = 110 ∨
          port = 143 := by simpa using h1
      rcases h1' with rfl | rfl | rfl | rfl | rfl <;> rfl
    · have h2' : port = 80 ∨ port = 8080 := by simpa using h2
      rcases h2' with rfl | rfl <;> rfl
  · intro q hq
    simp [PortScanner.servicesGet, hq]

/-- C8 witness: port 22 with a connect that succeeds and a banner read
that raises is still reported Open, with service "SSH" from the table
and banner "No banner". -/
theorem C8_witness :
    PortScanner.scan_port ⟨fun _ => true, fun _ => none⟩ 22 =
      some ⟨22, "SSH", "No banner", "Open"⟩ ∧
    PortScanner.grab_banner none 22 = "No banner" :=
  ⟨(C8_holds ⟨fun _ => true, fun _ => none⟩ 22 rfl).1,
   (C8_holds ⟨fun _ => true, fun _ => none⟩ 22 rfl).2.1 rfl (by decide)⟩

/-- C4: with the TCP method, if every TCP probe over the address space
finds nothing, the fallback flag is set, the ICMP strategy is
dispatched exactly once per address (the trace is the TCP pass followed
by one ICMP pass over the whole space), and the report text contains
the fallback notice; if any address answers the TCP pass, no ICMP probe
is dispatched at all. -/
theorem C4_holds (tcpProbe icmpProbe : Nat → Option NetworkScanner.HostEntry)
    (hostsL : List Nat) (rangeText durationStr : String) :
    ((∀ ip ∈ hostsL, tcpProbe ip = none) →
      (NetworkScanner.netScan tcpProbe icmpProbe hostsL "tcp" rangeText
        durationStr).fallbackUsed = true ∧
      (NetworkScanner.netScan tcpProbe icmpProbe hostsL "tcp" rangeText
        durationStr).trace =
        hostsL.map (fun ip => ("tcp", ip)) ++
          hostsL.map (fun ip => ("icmp", ip)) ∧
      "Attempting ICMP ping fallback...\n\n" ∈
        (NetworkScanner.netScan tcpProbe icmpProbe hostsL "tcp" rangeText
          durationStr).segments) ∧
    ((∃ ip ∈ hostsL, (tcpProbe ip).isSome) →
      (NetworkScanner.netScan tcpProbe icmpProbe hostsL "tcp" rangeText
        durationStr).fallbackUsed = false ∧
      (NetworkScanner.netScan tcpProbe icmpProbe hostsL "tcp" rangeText
        durationStr).trace = hostsL.map fun ip => ("tcp", ip)) := by
  have hprim : NetworkScanner.primaryProbe tcpProbe icmpProbe "tcp" =
      tcpProbe := rfl
  constructor
  · intro h
    have hfm : hostsL.filterMap tcpProbe = [] :=
      List.filterMap_eq_nil_iff.2 h
    have hfb : NetworkScanner.netFallback tcpProbe icmpProbe hostsL "tcp" =
        true := by
      simp [NetworkScanner.netFallback, hprim, hfm]
    refine ⟨hfb, ?_, ?_⟩
    · show NetworkScanner.netTrace tcpProbe icmpProbe hostsL "tcp" = _
      simp [NetworkScanner.netTrace, hfb]
    · show _ ∈ NetworkScanner.netSegments tcpProbe icmpProbe hostsL "tcp"
        rangeText durationStr
      simp [NetworkScanner.netSegments, hfb]
  · rintro ⟨ip, hmem, hsome⟩
    obtain ⟨e, he⟩ := Option.isSome_iff_exists.1 hsome
    have hne : hostsL.filterMap tcpProbe ≠ [] := by
      intro hnil
      have := List.filterMap_eq_nil_iff.1 hnil ip hmem
      rw [he] at this
      cases this
    have hfb : NetworkScanner.netFallback tcpProbe icmpProbe hostsL "tcp" =
        false := by
      unfold NetworkScanner.netFallback
      rw [hprim]
      cases hemp : (hostsL.filterMap tcpProbe).isEmpty with
      | false => simp
      | true => exact absurd (List.isEmpty_iff.1 hemp) hne
    refine ⟨hfb, ?_⟩
    show NetworkScanner.netTrace tcpProbe icmpProbe hostsL "tcp" = _
    simp [NetworkScanner.netTrace, hfb]

/-- C4 witness: two hosts, a TCP strategy finding nothing and an ICMP
strategy answering — the fallback fires, each host gets exactly one
ICMP dispatch after the TCP pass, and the notice is in the report. -/
theorem C4_witness :
    (NetworkScanner.netScan (fun _ => none)
      (fun ip => some ⟨ip, .icmp, "host", "mac"⟩) [1, 2] "tcp"
      "10.0.0.0/30" "0.10").fallbackUsed = true ∧
    (NetworkScanner.netScan (fun _ => none)
      (fun ip => some ⟨ip, .icmp, "host", "mac"⟩) [1, 2] "tcp"
      "10.0.0.0/30" "0.10").trace =
      [1, 2].map (fun ip => ("tcp", ip)) ++
        [1, 2].map (fun ip => ("icmp", ip)) ∧
    "Attempting ICMP ping fallback...\n\n" ∈
      (NetworkScanner.netScan (fun _ => none)
        (fun ip => some ⟨ip, .icmp, "host", "mac"⟩) [1, 2] "tcp"
        "10.0.0.0/30" "0.10").segments :=
  (C4_holds (fun _ => none) (fun ip => some ⟨ip, .icmp, "host", "mac"⟩)
    [1, 2] "10.0.0.0/30" "0.10").1 (fun _ _ => rfl)

/-- Where each element of the pre-sort `open_ports` collection comes
from: a successful probe of a submitted well-known port, a fabricated
high-port demo record, or (localhost only) a localhost demo record. -/
theorem mem_openPortsList {net : PortScanner.PortNet} {isl : Bool}
    {ports : List Nat} {e : PortScanner.PortEntry}
    (he : e ∈ PortScanner.openPortsList net isl ports) :
    (∃ p ∈ PortScanner.wellKnownOf ports,
      PortScanner.scan_port net p = some e) ∨
    e ∈ PortScanner.demo_high_port_services ∨
    (isl = true ∧ (e ∈ PortScanner.demo_open_ports ∨
      e = PortScanner.smtpDemo ∨ e = PortScanner.dnsDemo)) := by
  simp only [PortScanner.openPortsList] at he
  split at he
  case isTrue hcond =>
    right; right
    refine ⟨(Bool.and_eq_true _ _ ▸ hcond).1, ?_⟩
    simp only [PortScanner.localhostDemo] at he
    split at he
    · rcases List.mem_append.1 he with h | h
      · split at h
        · right; left; simpa using h
        · simp at h
      · split at h
        · right; right; simpa using h
        · simp at h
    · left; exact (List.mem_filter.1 he).1
  case isFalse =>
    rcases List.mem_append.1 he with h | h
    · left; exact List.mem_filterMap.1 h
    · right; left; exact (List.mem_filter.1 h).1

/-- C1 amended: every entry of a port-scan report either records a
well-known port that was submitted to the executor and whose TCP
connect succeeded (with the service/banner the probe computed and state
Open), or is one of the five fabricated high-port demo records, or —
for a localhost target only — one of the fabricated localhost demo
records.  Failed probes still contribute nothing. -/
theorem C1_amended_holds (inetOk : String → Bool)
    (dns : String → Option String) (net : PortScanner.PortNet)
    (target port_range : String) (probed : List Nat)
    (entries : List PortScanner.PortEntry)
    (hrep : PortScanner.portScan inetOk dns net target port_range =
      .report probed entries) :
    ∀ e ∈ entries,
      (e.port ∈ probed ∧ net.connectOk e.port = true ∧
        e = ⟨e.port, PortScanner.servicesGet e.port,
          PortScanner.grab_banner (net.recv e.port) e.port, "Open"⟩) ∨
      e ∈ PortScanner.demo_high_port_services ∨
      (PortScanner.isLocalhostTarget target = true ∧
        (e ∈ PortScanner.demo_open_ports ∨ e = PortScanner.smtpDemo ∨
          e = PortScanner.dnsDemo)) := by
  intro e he
  unfold PortScanner.portScan at hrep
  split at hrep
  · exact absurd hrep (by simp)
  split at hrep
  · exact absurd hrep (by simp)
  split at hrep
  · exact absurd hrep (by simp)
  injection hrep with h1 h2
  subst h1
  subst h2
  rcases mem_openPortsList (mem_sortPorts.1 he) with
    ⟨p, hpmem, hpe⟩ | hdemo | hlocal
  · left
    unfold PortScanner.scan_port at hpe
    by_cases hcon : net.connectOk p = true
    · rw [if_pos hcon] at hpe
      have heq := Option.some.inj hpe
      have hport : e.port = p := by rw [← heq]
      rw [hport]
      exact ⟨hpmem, hcon, heq.symm⟩
    · rw [if_neg hcon] at hpe
      exact absurd hpe (by simp)
  · right; left; exact hdemo
  · right; right; exact hlocal

/-- C1 witness: in the scan of "80,8080" against a non-localhost target
with only port 80 answering, the demo entry for port 8080 is accounted
for by the demo disjunct (its port was never submitted: probed = [80]). -/
theorem C1_witness :
    (((8080 : Nat) ∈ ([80] : List Nat) ∧
      (fun p : Nat => p == 80) 8080 = true ∧
      (⟨8080, "HTTP-Alt", "Apache httpd 2.4.41", "Open"⟩ :
          PortScanner.PortEntry) =
        ⟨8080, PortScanner.servicesGet 8080,
          PortScanner.grab_banner none 8080, "Open"⟩) ∨
    (⟨8080, "HTTP-Alt", "Apache httpd 2.4.41", "Open"⟩ :
        PortScanner.PortEntry) ∈ PortScanner.demo_high_port_services ∨
    (PortScanner.isLocalhostTarget "192.0.2.9" = true ∧
      ((⟨8080, "HTTP-Alt", "Apache httpd 2.4.41", "Open"⟩ :
          PortScanner.PortEntry) ∈ PortScanner.demo_open_ports ∨
        (⟨8080, "HTTP-Alt", "Apache httpd 2.4.41", "Open"⟩ :
            PortScanner.PortEntry) = PortScanner.smtpDemo ∨
        (⟨8080, "HTTP-Alt", "Apache httpd 2.4.41", "Open"⟩ :
            PortScanner.PortEntry) = PortScanner.dnsDemo))) :=
  C1_amended_holds (fun _ => true) (fun _ => none)
    ⟨fun p => p == 80, fun _ => none⟩ "192.0.2.9" "80,8080" [80]
    [⟨80, "HTTP", "No banner", "Open"⟩,
     ⟨8080, "HTTP-Alt", "Apache httpd 2.4.41", "Open"⟩] rfl
    ⟨8080, "HTTP-Alt", "Apache httpd 2.4.41", "Open"⟩ (by decide)

/-- C5 counterexample: the duplicate comma list "80,80" with port 80
open produces a report whose port list is 80, 80 — sorted, but not
strictly ascending. -/
theorem C5_counterexample :
    PortScanner.portScan (fun _ => true) (fun _ => none)
      ⟨fun p => p == 80, fun _ => none⟩ "192.0.2.9" "80,80" =
      .report [80, 80]
        [⟨80, "HTTP", "No banner", "Open"⟩,
         ⟨80, "HTTP", "No banner", "Open"⟩] ∧
    ¬ List.Chain' (fun a b : PortScanner.PortEntry => a.port < b.port)
      [⟨80, "HTTP", "No banner", "Open"⟩,
       ⟨80, "HTTP", "No banner", "Open"⟩] :=
  ⟨rfl, by simp [List.chain'_cons]⟩

/-- C5 amended: whatever order the workers appended in, the sorted
report is non-decreasing under its key (hosts by numeric address, ports
by port number); when the keys are pairwise distinct the order is
strictly ascending — and the host list of a network scan always has
pairwise-distinct addresses (each address is appended at most once), so
its report is strictly ascending.  Port lists can repeat a port (one
entry per duplicated occurrence), and are then only non-decreasing. -/
theorem C5_amended_holds :
    (∀ l : List NetworkScanner.HostEntry,
      (NetworkScanner.sortHosts l).Sorted fun a b => a.ip ≤ b.ip) ∧
    (∀ l : List PortScanner.PortEntry,
      (PortScanner.sortPorts l).Sorted fun a b => a.port ≤ b.port) ∧
    (∀ l : List NetworkScanner.HostEntry,
      (l.map NetworkScanner.HostEntry.ip).Nodup →
      (NetworkScanner.sortHosts l).Chain' fun a b => a.ip < b.ip) ∧
    (∀ l : List PortScanner.PortEntry,
      (l.map PortScanner.PortEntry.port).Nodup →
      (PortScanner.sortPorts l).Chain' fun a b => a.port < b.port) ∧
    (∀ (tcpProbe icmpProbe : Nat → Option NetworkScanner.HostEntry)
      (hostsL : List Nat) (method rangeText durationStr : String),
      (∀ ip e, tcpProbe ip = some e → e.ip = ip) →
      (∀ ip e, icmpProbe ip = some e → e.ip = ip) →
      hostsL.Nodup →
      ((NetworkScanner.netScan tcpProbe icmpProbe hostsL method rangeText
        durationStr).entries).Chain' fun a b => a.ip < b.ip) := by
  refine ⟨sorted_sortHosts, sorted_sortPorts, ?_, ?_, ?_⟩
  · intro l hn
    exact chain_lt_of_sorted_key_nodup NetworkScanner.HostEntry.ip
      (sorted_sortHosts l)
      (((List.perm_insertionSort _ l).map _).nodup_iff.2 hn)
  · intro l hn
    exact chain_lt_of_sorted_key_nodup PortScanner.PortEntry.port
      (sorted_sortPorts l)
      (((List.perm_insertionSort _ l).map _).nodup_iff.2 hn)
  · intro tcpProbe icmpProbe hostsL method rangeText durationStr htcp hicmp
      hnodup
    have presP : ∀ ip e,
        NetworkScanner.primaryProbe tcpProbe icmpProbe method ip = some e →
          e.ip = ip := by
      intro ip e h
      unfold NetworkScanner.primaryProbe at h
      split at h
      · exact hicmp ip e h
      · exact htcp ip e h
    have hraw : ∃ probe, (∀ ip e, probe ip = some e → e.ip = ip) ∧
        NetworkScanner.netRaw tcpProbe icmpProbe hostsL method =
          hostsL.filterMap probe := by
      by_cases hfb : NetworkScanner.netFallback tcpProbe icmpProbe hostsL
          method = true
      · refine ⟨icmpProbe, hicmp, ?_⟩
        have hempty : hostsL.filterMap
            (NetworkScanner.primaryProbe tcpProbe icmpProbe method) = [] := by
          unfold NetworkScanner.netFallback at hfb
          exact List.isEmpty_iff.1 (Bool.and_eq_true _ _ ▸ hfb).2
        unfold NetworkScanner.netRaw
        rw [hempty, hfb]
        simp
      · refine ⟨NetworkScanner.primaryProbe tcpProbe icmpProbe method,
          presP, ?_⟩
        have hfb2 : NetworkScanner.netFallback tcpProbe icmpProbe hostsL
            method = false := Bool.eq_false_iff.mpr hfb
        unfold NetworkScanner.netRaw
        rw [hfb2]
        simp
    obtain ⟨probe, pres, heq⟩ := hraw
    show (NetworkScanner.sortHosts
      (NetworkScanner.netRaw tcpProbe icmpProbe hostsL method)).Chain' _
    rw [heq]
    exact chain_lt_of_sorted_key_nodup NetworkScanner.HostEntry.ip
      (sorted_sortHosts _)
      (((List.perm_insertionSort _ _).map _).nodup_iff.2
        (filterMap_ip_nodup probe pres hnodup))

/-- C5 witness: a TCP scan over the distinct hosts 2 and 1, both
answering, yields a strictly ascending host report. -/
theorem C5_witness :
    ((NetworkScanner.netScan (fun ip => some ⟨ip, .tcp 80, "h", "m"⟩)
      (fun _ => none) [2, 1] "tcp" "10.0.0.0/30" "0.10").entries).Chain'
      (fun a b => a.ip < b.ip) :=
  C5_amended_holds.2.2.2.2 (fun ip => some ⟨ip, .tcp 80, "h", "m"⟩)
    (fun _ => none) [2, 1] "tcp" "10.0.0.0/30" "0.10"
    (by intro ip e h; injection h with h2; rw [← h2])
    (by intro ip e h; cases h) (by decide)
